import Mathlib

/-!
Verification of the pyrigol DG4202 device-abstraction layer.

We shallowly embed the Python sources (`src/device/dg4202.py`,
`src/api/dg4202_api.py`, `frontend/src/features/state_managers.py`) in Lean:
the simulated-instrument dictionary becomes an association list, the
state-machine `write`/`read` become explicit functions (fallible `write`
returning `Except`, modelling the `ValueError` raised by tuple unpacking),
the mock transport becomes a record with a `killed` flag, and the facade
operations become generators of the SCPI command strings they send.
Python's `str.split()` (whitespace runs, empties dropped) and
`str.split(" ")` (single-space separator, empties kept) are modelled
character by character.
-/

/-- Model of a Python `dict` as an association list: `d[k] = v` updates the
first matching key in place or appends a fresh entry. -/
def dictSet : List (String × String) → String → String → List (String × String)
  | [], k, v => [(k, v)]
  | p :: rest, k, v => if p.1 = k then (k, v) :: rest else p :: dictSet rest k v

/-- Model of Python `dict` lookup: first entry with the given key. -/
def dictGet : List (String × String) → String → Option String
  | [], _ => none
  | p :: rest, k => if p.1 = k then some p.2 else dictGet rest k

/-- Helper for Python `str.split()` (no argument): split a character list on
runs of whitespace, dropping empty pieces. `acc` holds the current word,
reversed. -/
def wordsAux : List Char → List Char → List (List Char)
  | acc, [] => if acc.isEmpty then [] else [acc.reverse]
  | acc, c :: cs =>
    if c.isWhitespace then
      if acc.isEmpty then wordsAux [] cs else acc.reverse :: wordsAux [] cs
    else
      wordsAux (c :: acc) cs

/-- Python `command.split()`: whitespace-separated tokens. -/
def pyTokens (s : String) : List String :=
  (wordsAux [] s.data).map String.mk

/-- Helper for Python `str.split(" ")`: split on each single space character,
keeping empty pieces (`"".split(" ") == [""]`). -/
def splitSpAux : List Char → List Char → List (List Char)
  | acc, [] => [acc.reverse]
  | acc, c :: cs =>
    if c = ' ' then acc.reverse :: splitSpAux [] cs else splitSpAux (c :: acc) cs

/-- Python `value.split(" ")[-1]`: the last single-space-separated piece
(total, since `split(" ")` always returns at least one element). -/
def lastSpaceToken (s : String) : String :=
  String.mk ((splitSpAux [] s.data).getLastD [])

namespace DG4202StateMachine

/-- The `self.state` dictionary built by `DG4202StateMachine.__init__`,
verbatim from the source. -/
def initialState : List (String × String) :=
  [("*STB?", "0"),
   ("SOURce1:SWEEp:STATe", "0"),
   ("SOURce1:BURSt:STATe", "0"),
   ("SOURce1:MOD:STATe", "0"),
   ("SOURce1:MOD:TYPE", "none"),
   ("OUTPut1", "0"),
   ("SOURce1:FUNCtion", "SIN"),
   ("SOURce1:FREQuency:FIXed", "375.0"),
   ("SOURce1:VOLTage:LEVel:IMMediate:AMPLitude", "3.3"),
   ("SOURce1:VOLTage:LEVel:IMMediate:OFFSet", "0.0"),
   ("SOURce1:SWEEp:STARt", "0"),
   ("SOURce1:SWEEp:STOP", "0"),
   ("SOURce1:SWEEp:TIME", "0"),
   ("SOURce1:SWEEp:SPAC", "0"),
   ("SOURce1:BURSt:NCYC", "0"),
   ("SOURce1:BURSt:MODE", "0"),
   ("SOURce1:BURSt:TRIG", "0"),
   ("SOURce1:BURSt:PHAS", "0"),
   ("SOURce1:MOD:SOUR", "0"),
   ("SOURce1:MOD:DEPT", "0"),
   ("SOURce1:MOD:DEV", "0"),
   ("SOURce1:MOD:RATE", "0"),
   ("SOURce2:SWEEp:STATe", "0"),
   ("SOURce2:BURSt:STATe", "0"),
   ("SOURce2:MOD:STATe", "0"),
   ("SOURce2:MOD:TYPE", "none"),
   ("OUTPut2", "0"),
   ("SOURce2:FUNCtion", "SIN"),
   ("SOURce2:FREQuency:FIXed", "375.0"),
   ("SOURce2:VOLTage:LEVel:IMMediate:AMPLitude", "3.3"),
   ("SOURce2:VOLTage:LEVel:IMMediate:OFFSet", "0.0"),
   ("SOURce2:SWEEp:STARt", "0"),
   ("SOURce2:SWEEp:STOP", "0"),
   ("SOURce2:SWEEp:TIME", "0"),
   ("SOURce2:SWEEp:SPAC", "0"),
   ("SOURce2:BURSt:NCYC", "0"),
   ("SOURce2:BURSt:MODE", "0"),
   ("SOURce2:BURSt:TRIG", "0"),
   ("SOURce2:BURSt:PHAS", "0"),
   ("SOURce2:MOD:SOUR", "0"),
   ("SOURce2:MOD:DEPT", "0"),
   ("SOURce2:MOD:DEV", "0"),
   ("SOURce2:MOD:RATE", "0")]

/-- The first membership list of `DG4202StateMachine.write` (commands coerced
to `"1"`), verbatim from the source. -/
def onCommands : List String :=
  ["OUTPut1 ON", "SOURce1:SWEEp:STATe ON", "SOURce1:BURSt:STATe ON",
   "SOURce1:MOD:STATe ON", "OUTPut2 ON", "SOURce2:SWEEp:STATe ON",
   "SOURce2:BURSt:STATe ON", "SOURce2:MOD:STATe ON"]

/-- The second membership list of `DG4202StateMachine.write` (commands coerced
to `"0"`), verbatim from the source.  Note the source lists
`"SOURce1:SWEEp:STATe OFF"` twice and omits `"SOURce2:SWEEp:STATe OFF"`. -/
def offCommands : List String :=
  ["OUTPut1 OFF", "SOURce1:SWEEp:STATe OFF", "SOURce1:BURSt:STATe OFF",
   "SOURce1:MOD:STATe OFF", "OUTPut2 OFF", "SOURce1:SWEEp:STATe OFF",
   "SOURce2:BURSt:STATe OFF", "SOURce2:MOD:STATe OFF"]

/-- `DG4202StateMachine.write`: the Python `command, value = command.split()`
raises `ValueError` unless the command splits into exactly two whitespace
tokens (modelled as `Except.error ()`), and the state mutation happens only
after a successful split. -/
def write (cmd : String) (st : List (String × String)) :
    Except Unit (List (String × String)) :=
  if cmd ∈ onCommands then
    match pyTokens cmd with
    | [k, _] => .ok (dictSet st k "1")
    | _ => .error ()
  else if cmd ∈ offCommands then
    match pyTokens cmd with
    | [k, _] => .ok (dictSet st k "0")
    | _ => .error ()
  else
    match pyTokens cmd with
    | [k, v] => .ok (dictSet st k v)
    | _ => .error ()

/-- The contents of `self.state` after a call to `write`, whether or not it
raised: on an exception the dictionary is untouched. -/
def writeState (cmd : String) (st : List (String × String)) :
    List (String × String) :=
  match write cmd st with
  | .ok st' => st'
  | .error _ => st

/-- Python `command.endswith("?")` followed by `command[:-1]`: for the
one-character suffix `"?"` this is exactly "drop the last character when it
is `'?'`". -/
def stripQuery (s : String) : String :=
  match s.data.getLast? with
  | some '?' => String.mk s.data.dropLast
  | _ => s

/-- `DG4202StateMachine.read`: strip one trailing `"?"`, look the key up with
default `""`, and return the last single-space-separated piece of the value. -/
def read (cmd : String) (st : List (String × String)) : String :=
  lastSpaceToken ((dictGet st (stripQuery cmd)).getD "")

/-- Run a sequence of writes against the state machine, stopping at the first
exception; returns the dictionary contents at that point and whether all
writes succeeded. -/
def runWrites : List String → List (String × String) →
    List (String × String) × Bool
  | [], st => (st, true)
  | c :: cs, st =>
    match write c st with
    | .ok st' => runWrites cs st'
    | .error _ => (st, false)

end DG4202StateMachine

/-- The mock transport `DG4202MockInterface`: a `killed` flag plus the wrapped
state machine's dictionary (`self.dg4202.state`). -/
structure DG4202MockInterface where
  killed : Bool
  dg4202 : List (String × String)
deriving DecidableEq

namespace DG4202MockInterface

/-- `DG4202MockInterface.write`: while killed, return immediately (`None`)
with no effect; otherwise delegate to the state machine (whose `ValueError`
propagates). -/
def write (cmd : String) (m : DG4202MockInterface) :
    Except Unit DG4202MockInterface :=
  if m.killed then .ok m
  else
    match DG4202StateMachine.write cmd m.dg4202 with
    | .ok st' => .ok ⟨m.killed, st'⟩
    | .error e => .error e

/-- `DG4202MockInterface.read`: `None` while killed, else the state machine's
answer. -/
def read (cmd : String) (m : DG4202MockInterface) : Option String :=
  if m.killed then none else some (DG4202StateMachine.read cmd m.dg4202)

/-- `DG4202MockInterface.simulate_kill`. -/
def simulate_kill (kill : Bool) (m : DG4202MockInterface) : DG4202MockInterface :=
  { m with killed := kill }

/-- Run a sequence of mock writes, stopping at the first propagated
exception. -/
def runWrites : List String → DG4202MockInterface →
    Except Unit DG4202MockInterface
  | [], m => .ok m
  | c :: cs, m =>
    match write c m with
    | .ok m' => runWrites cs m'
    | .error e => .error e

end DG4202MockInterface

/-- Python `str.lower()`, character by character. -/
def pyLower (s : String) : String :=
  String.mk (s.data.map Char.toLower)

namespace DG4202

/-- The SCPI key `f"SOURce{channel}{suffix}"`. -/
def srcName (channel : Nat) (suffix : String) : String :=
  "SOURce" ++ toString channel ++ suffix

/-- A facade write command `f"SOURce{channel}{suffix} {value}"`. -/
def srcCmd (channel : Nat) (suffix : String) (value : String) : String :=
  srcName channel suffix ++ " " ++ value

/-- The SCPI key `f"OUTPut{channel}"`. -/
def outName (channel : Nat) : String :=
  "OUTPut" ++ toString channel

/-- One optional write of `DG4202.set_waveform`: sent only when the argument
is not `None`. -/
def optCmd (channel : Nat) (suffix : String) : Option String → List String
  | some v => [srcCmd channel suffix v]
  | none => []

/-- The command strings sent by `DG4202.set_waveform`: one write per
non-`None` argument, in source order.  Numeric arguments are modelled as
their rendered interpolation text. -/
def set_waveform_cmds (channel : Nat)
    (waveform_type frequency amplitude offset : Option String) : List String :=
  optCmd channel ":FUNCtion" waveform_type ++
  optCmd channel ":FREQuency:FIXed" frequency ++
  optCmd channel ":VOLTage:LEVel:IMMediate:AMPLitude" amplitude ++
  optCmd channel ":VOLTage:LEVel:IMMediate:OFFSet" offset

/-- The three writes of `DG4202.turn_off_modes`, in source order. -/
def turn_off_modes_cmds (channel : Nat) : List String :=
  [srcCmd channel ":SWEEp:STATe" "OFF",
   srcCmd channel ":BURSt:STATe" "OFF",
   srcCmd channel ":MOD:STATe" "OFF"]

/-- The command strings sent by `DG4202.set_mode`.  `mode.lower()` selects the
branch; the unsupported-mode branch only prints and sends nothing.  In the
`"mod"` branch `if mod_type:` is Python truthiness on an optional string. -/
def set_mode_cmds (channel : Nat) (mode : String) (mod_type : Option String) :
    List String :=
  if pyLower mode = "sweep" then [srcCmd channel ":SWEEp:STATe" "ON"]
  else if pyLower mode = "burst" then [srcCmd channel ":BURSt:STATe" "ON"]
  else if pyLower mode = "mod" then
    [srcCmd channel ":MOD:STATe" "ON"] ++
      (match mod_type with
       | some mt => if mt = "" then [] else [srcCmd channel ":MOD:TYPE" mt]
       | none => [])
  else if pyLower mode = "off" then turn_off_modes_cmds channel
  else []

/-- The single write of `DG4202.output_on_off`. -/
def output_on_off_cmds (channel : Nat) (status : Bool) : List String :=
  [if status then outName channel ++ " " ++ "ON" else outName channel ++ " " ++ "OFF"]

/-- `DG4202.get_mode` run against the (non-killed) mock transport, i.e. with
every interface read answered by the state machine on dictionary `st`.
Returns the `mode` string and the `parameters` list. -/
def get_mode (channel : Nat) (st : List (String × String)) :
    String × List (String × String) :=
  let sweep_state := DG4202StateMachine.read (srcName channel ":SWEEp:STATe" ++ "?") st
  let burst_state := DG4202StateMachine.read (srcName channel ":BURSt:STATe" ++ "?") st
  let mod_state := DG4202StateMachine.read (srcName channel ":MOD:STATe" ++ "?") st
  let mod_type :=
    if mod_state = "1" then
      some (DG4202StateMachine.read (srcName channel ":MOD:TYPE" ++ "?") st)
    else none
  if sweep_state = "1" then
    ("sweep", ["STAR", "STOP", "TIME", "SPAC"].map fun p =>
      (p, DG4202StateMachine.read (srcName channel (":SWEEp:" ++ p) ++ "?") st))
  else if burst_state = "1" then
    ("burst", ["NCYC", "MODE", "TRIG", "PHAS"].map fun p =>
      (p, DG4202StateMachine.read (srcName channel (":BURSt:" ++ p) ++ "?") st))
  else if mod_state = "1" then
    let mt := (mod_type.getD "None")
    ("mod (" ++ mt ++ ")", ["SOUR", "DEPT", "DEV", "RATE"].map fun p =>
      (p, DG4202StateMachine.read (srcName channel (":MOD:" ++ mt ++ ":" ++ p) ++ "?") st))
  else
    ("off", [])

/-- The record returned by `DG4202.get_waveform_parameters`: the four raw
response strings of the four reads. -/
structure WaveformParams where
  waveform_type : String
  frequency : String
  amplitude : String
  offset : String
deriving DecidableEq

/-- `DG4202.get_waveform_parameters` run against the (non-killed) mock
transport: four state-machine reads, returned verbatim. -/
def get_waveform_parameters (channel : Nat) (st : List (String × String)) :
    WaveformParams :=
  { waveform_type := DG4202StateMachine.read (srcName channel ":FUNCtion" ++ "?") st
    frequency := DG4202StateMachine.read (srcName channel ":FREQuency:FIXed" ++ "?") st
    amplitude := DG4202StateMachine.read (srcName channel ":VOLTage:LEVel:IMMediate:AMPLitude" ++ "?") st
    offset := DG4202StateMachine.read (srcName channel ":VOLTage:LEVel:IMMediate:OFFSet" ++ "?") st }

/-- `DG4202.get_output_status` over an arbitrary transport, modelled by its
read function: `'ON' if self.interface.read(f"OUTPut{channel}?") == '1' else
'OFF'`. -/
def get_output_status (rd : String → String) (channel : Nat) : String :=
  if rd (outName channel ++ "?") = "1" then "ON" else "OFF"

end DG4202

/-- The facade operations of claim C10, with their arguments. -/
inductive FacadeOp
  | setWaveform (channel : Nat) (waveform_type frequency amplitude offset : Option String)
  | setMode (channel : Nat) (mode : String) (mod_type : Option String)
  | turnOffModes (channel : Nat)
  | outputOnOff (channel : Nat) (status : Bool)

/-- The channel argument of a facade operation. -/
def FacadeOp.channel : FacadeOp → Nat
  | .setWaveform c _ _ _ _ => c
  | .setMode c _ _ => c
  | .turnOffModes c => c
  | .outputOnOff c _ => c

/-- The command strings a facade operation sends through the transport. -/
def FacadeOp.cmds : FacadeOp → List String
  | .setWaveform c w f a o => DG4202.set_waveform_cmds c w f a o
  | .setMode c m mt => DG4202.set_mode_cmds c m mt
  | .turnOffModes c => DG4202.turn_off_modes_cmds c
  | .outputOnOff c s => DG4202.output_on_off_cmds c s

/-- The `SOURce{channel}` key suffixes a facade operation of claim C10 can
write to. -/
def facadeSuffixes : List String :=
  [":FUNCtion", ":FREQuency:FIXed", ":VOLTage:LEVel:IMMediate:AMPLitude",
   ":VOLTage:LEVel:IMMediate:OFFSet", ":SWEEp:STATe", ":BURSt:STATe",
   ":MOD:STATe", ":MOD:TYPE"]

/-- A command addressed to channel `c`: a `SOURce{c}{suffix} value` write for
one of the facade suffixes, or an `OUTPut{c} value` write. -/
def chanShaped (c : Nat) (cmd : String) : Prop :=
  (∃ suffix v, suffix ∈ facadeSuffixes ∧ cmd = DG4202.srcCmd c suffix v) ∨
  (∃ v, cmd = DG4202.outName c ++ " " ++ v)

/-- `"%02d"` rendering of a value in `[0, 60)`. -/
def pad2 (n : Nat) : String :=
  if n < 10 then "0" ++ toString n else toString n

/-- Python `str(timedelta(seconds=n))` for a whole number of seconds `n`:
`timedelta` normalises to `days = n // 86400` (floor) and a remainder in
`[0, 86400)`; `__str__` renders `h:mm:ss` and, when `days` is nonzero,
prepends `"{days} day{s}, "` (no `"s"` exactly when `abs(days) == 1`). -/
def pyTimedeltaStr (n : Int) : String :=
  let days : Int := n.fdiv 86400
  let secs : Nat := (n.emod 86400).toNat
  let hh := secs / 3600
  let mm := secs % 3600 / 60
  let ss := secs % 60
  let hms := toString hh ++ ":" ++ pad2 mm ++ ":" ++ pad2 ss
  if days = 0 then hms
  else
    toString days ++ " day" ++ (if days = 1 ∨ days = -1 then "" else "s") ++ ", " ++ hms

/-- `DG4202Manager.get_device_uptime` (and the identical
`factory.get_device_uptime`): if `state["last_known_device_uptime"]` is
truthy, render `str(timedelta(seconds=int(now - start)))`; otherwise return
`"N/A"`.  Wall-clock instants are modelled as whole seconds, so the `int()`
truncation is the identity; Python truthiness makes both a null record and a
zero timestamp take the `"N/A"` branch. -/
def get_device_uptime (now : Int) (last_known_device_uptime : Option Int) : String :=
  match last_known_device_uptime with
  | some t => if t = 0 then "N/A" else pyTimedeltaStr (now - t)
  | none => "N/A"

/-- Modelled from the spec (refinement target for claim C6): the elapsed
duration "formatted as `H:MM:SS` with the hours field unbounded". -/
def specUnboundedHMS (e : Nat) : String :=
  toString (e / 3600) ++ ":" ++ pad2 (e % 3600 / 60) ++ ":" ++ pad2 (e % 60)

/-- A JSON reply of the API server: HTTP status code plus the `status` or
`error` field of the body. -/
structure ApiResponse where
  code : Nat
  status : Option String
  error : Option String
deriving DecidableEq

/-- The transport an API server instance is bound to: the hardware mock
(`isinstance(self.dg4202_interface, DG4202MockInterface)` true) or anything
else. -/
inductive BoundTransport
  | mock (m : DG4202MockInterface)
  | hardware
deriving DecidableEq

namespace DG4202APIServer

/-- The `/api/simulate_kill` route of `src/device/dg4202.py`
(`DG4202APIServer.setup_routes.simulate_kill`): `kill == 'true'` calls
`simulate_kill(True)`, `kill == 'false'` calls `simulate_kill(False)`, any
other value (including an absent `kill`, rendered `"None"` by the f-string)
yields 400; a non-mock transport yields 400 with the fixed error text. -/
def simulate_kill_route_dev (tr : BoundTransport) (kill : Option String) :
    ApiResponse × BoundTransport :=
  match tr with
  | .mock m =>
    (match kill with
     | some k =>
       if k = "true" then
         (⟨200, some (k ++ " sent"), none⟩, .mock (m.simulate_kill true))
       else if k = "false" then
         (⟨200, some (k ++ " sent"), none⟩, .mock (m.simulate_kill false))
       else (⟨400, none, some (k ++ " failed.")⟩, tr)
     | none => (⟨400, none, some "None failed."⟩, tr))
  | .hardware => (⟨400, none, some "interface is not a hardware mock"⟩, tr)

/-- The `/api/simulate_kill` route of `src/api/dg4202_api.py`: identical to
`simulate_kill_route_dev` except that, as in the source, the `kill ==
'false'` branch also calls `simulate_kill(True)`. -/
def simulate_kill_route_api (tr : BoundTransport) (kill : Option String) :
    ApiResponse × BoundTransport :=
  match tr with
  | .mock m =>
    (match kill with
     | some k =>
       if k = "true" then
         (⟨200, some (k ++ " sent"), none⟩, .mock (m.simulate_kill true))
       else if k = "false" then
         (⟨200, some (k ++ " sent"), none⟩, .mock (m.simulate_kill true))
       else (⟨400, none, some (k ++ " failed.")⟩, tr)
     | none => (⟨400, none, some "None failed."⟩, tr))
  | .hardware => (⟨400, none, some "interface is not a hardware mock"⟩, tr)

end DG4202APIServer

/-- Invariant of the state machine's dictionary: no stored value contains a
space character.  It holds of `initialState` and is preserved by `write`
(stored values are single whitespace-free tokens or the literals
`"1"`/`"0"`). -/
def valuesSpaceFree (st : List (String × String)) : Bool :=
  st.all fun p => p.2.data.all fun c => !(c == ' ')

/-- Whether a State Store key belongs to channel `d`: its SCPI name starts
with `SOURce{d}` or `OUTPut{d}`. -/
def chanKeyOf (d : Nat) (k : String) : Bool :=
  List.isPrefixOf ("SOURce" ++ toString d).data k.data ||
    List.isPrefixOf ("OUTPut" ++ toString d).data k.data

/-!
## Lemmas about the dictionary model
-/

theorem dictGet_dictSet_self (st : List (String × String)) (k v : String) :
    dictGet (dictSet st k v) k = some v := by
  induction st with
  | nil => simp [dictSet, dictGet]
  | cons p rest ih =>
    by_cases h : p.1 = k
    · simp [dictSet, dictGet, h]
    · simp [dictSet, dictGet, h, ih]

theorem dictGet_dictSet_ne (st : List (String × String)) (k v q : String)
    (h : q ≠ k) : dictGet (dictSet st k v) q = dictGet st q := by
  induction st with
  | nil => simp [dictSet, dictGet, Ne.symm h]
  | cons p rest ih =>
    by_cases hp : p.1 = k
    · subst hp
      simp [dictSet, dictGet, Ne.symm h, h]
    · simp only [dictSet, if_neg hp, dictGet]
      by_cases hq : p.1 = q <;> simp [hq, ih]

/-!
## Claim theorems
-/

/-- C1 (code_bug evidence): starting from the power-on mock state, after
`set_mode(1, "sweep")` and then `set_mode(1, "burst")`, `get_mode(1)` still
returns `"sweep"` — not `"burst"` — and the sweep state flag still reads
`"1"`: `set_mode` activates the new mode without deactivating the previous
one, so the previously active mode does not report its state flag as off. -/
theorem set_mode_leaves_previous_mode_active :
    (DG4202.get_mode 1
      (DG4202StateMachine.runWrites (DG4202.set_mode_cmds 1 "burst" none)
        (DG4202StateMachine.runWrites (DG4202.set_mode_cmds 1 "sweep" none)
          DG4202StateMachine.initialState).1).1).1 = "sweep" ∧
    DG4202StateMachine.read "SOURce1:SWEEp:STATe?"
      (DG4202StateMachine.runWrites (DG4202.set_mode_cmds 1 "burst" none)
        (DG4202StateMachine.runWrites (DG4202.set_mode_cmds 1 "sweep" none)
          DG4202StateMachine.initialState).1).1 = "1" ∧
    DG4202StateMachine.read "SOURce1:BURSt:STATe?"
      (DG4202StateMachine.runWrites (DG4202.set_mode_cmds 1 "burst" none)
        (DG4202StateMachine.runWrites (DG4202.set_mode_cmds 1 "sweep" none)
          DG4202StateMachine.initialState).1).1 = "1" := by
  decide

/-- C2 (code_bug evidence): the `/api/simulate_kill` route of
`src/api/dg4202_api.py`, bound to a killed mock and given `kill = "false"`,
answers `200 {status: "false sent"}` but leaves the mock's `killed` flag
`True` (the source's `'false'` branch calls `simulate_kill(True)`), so normal
read/write behavior is not restored as the claim requires. -/
theorem simulate_kill_false_leaves_mock_killed :
    DG4202APIServer.simulate_kill_route_api
      (.mock ⟨true, DG4202StateMachine.initialState⟩) (some "false") =
    (⟨200, some "false sent", none⟩,
     .mock ⟨true, DG4202StateMachine.initialState⟩) := by
  decide

/-- C3 (counterexample): with the mock holding the malformed text `"abc"` in
the channel-1 frequency entry, `get_waveform_parameters(1)` succeeds (it is a
total function — the source performs no numeric conversion at all) and
returns the raw stored strings, frequency `"abc"` included, instead of
failing with a parse error as the claim requires. -/
theorem get_waveform_parameters_returns_raw_text :
    DG4202.get_waveform_parameters 1
      (DG4202StateMachine.writeState "SOURce1:FREQuency:FIXed abc"
        DG4202StateMachine.initialState) =
    ⟨"SIN", "abc", "3.3", "0.0"⟩ := by
  decide

/-- C4 (counterexample): a transport whose answer to every query is the
literal `"ON"` makes `get_output_status` return `"OFF"`: the source compares
the answer with `'1'` only, so the literal `"ON"` is not treated as true. -/
theorem get_output_status_on_literal_gives_off :
    DG4202.get_output_status (fun _ => "ON") 1 = "OFF" := by
  decide

/-- C4 (amended): `get_output_status(channel)` performs one read and returns
`"ON"` exactly when the transport's answer to the output query is the literal
`"1"`; every other answer — the literal `"ON"` included — yields `"OFF"`. -/
theorem get_output_status_iff_literal_one (rd : String → String) (channel : Nat) :
    (rd (DG4202.outName channel ++ "?") = "1" →
      DG4202.get_output_status rd channel = "ON") ∧
    (rd (DG4202.outName channel ++ "?") ≠ "1" →
      DG4202.get_output_status rd channel = "OFF") := by
  constructor <;> intro h <;> simp [DG4202.get_output_status, h]

/-- Witness for `get_output_status_iff_literal_one` at a concrete transport
answering `"1"` and at one answering `"ON"`. -/
theorem get_output_status_iff_literal_one_witness :
    DG4202.get_output_status (fun _ => "1") 1 = "ON" ∧
    DG4202.get_output_status (fun _ => "XXX") 2 = "OFF" :=
  ⟨(get_output_status_iff_literal_one (fun _ => "1") 1).1 rfl,
   (get_output_status_iff_literal_one (fun _ => "XXX") 2).2 (by decide)⟩

/-- C5 (code_bug evidence): the state-machine write `"SOURce2:SWEEp:STATe
OFF"` stores the literal `"OFF"` instead of the canonical `"0"` — the
source's OFF membership list names `"SOURce1:SWEEp:STATe OFF"` twice and
omits the channel-2 sweep toggle — while the same command for channel 1 is
coerced to `"0"` as the claim states. -/
theorem sweep2_off_not_coerced :
    dictGet (DG4202StateMachine.writeState "SOURce2:SWEEp:STATe OFF"
      DG4202StateMachine.initialState) "SOURce2:SWEEp:STATe" = some "OFF" ∧
    dictGet (DG4202StateMachine.writeState "SOURce1:SWEEp:STATe OFF"
      DG4202StateMachine.initialState) "SOURce1:SWEEp:STATe" = some "0" := by
  decide

/-- C6 (counterexample): with a non-null liveness record and an elapsed
duration of 90000 seconds (25 hours), the device-uptime query returns
`"1 day, 1:00:00"` — Python's `str(timedelta)` wraps the hours field at 24
and prepends a days part — not the unbounded-hours `"25:00:00"` the claim
requires. -/
theorem get_device_uptime_wraps_at_24_hours :
    get_device_uptime 90001 (some 1) = "1 day, 1:00:00" ∧
    specUnboundedHMS 90000 = "25:00:00" ∧
    get_device_uptime 90001 (some 1) ≠ specUnboundedHMS 90000 := by
  decide

/-!
## Lemmas about the Python string-splitting models
-/

theorem wordsAux_word (w : List Char) : ∀ (acc rest : List Char),
    (∀ c ∈ w, ¬ c.isWhitespace) → (w ≠ [] ∨ acc ≠ []) →
    wordsAux acc (w ++ ' ' :: rest) = (acc.reverse ++ w) :: wordsAux [] rest := by
  induction w with
  | nil =>
    intro acc rest _ hne
    have hacc : acc ≠ [] := by
      rcases hne with h | h
      · exact absurd rfl h
      · exact h
    have : acc.isEmpty = false := by
      cases acc with
      | nil => exact absurd rfl hacc
      | cons a l => rfl
    simp [wordsAux, this]
  | cons c w ih =>
    intro acc rest h hne
    have hc : ¬ c.isWhitespace := h c (by simp)
    have step : wordsAux acc (c :: (w ++ ' ' :: rest)) =
        wordsAux (c :: acc) (w ++ ' ' :: rest) := by
      rw [wordsAux]
      simp [hc]
    rw [List.cons_append, step,
      ih (c :: acc) rest (fun x hx => h x (by simp [hx])) (Or.inr (by simp))]
    simp

theorem pyTokens_pair (name v : String) (h1 : name.data ≠ [])
    (h2 : ∀ c ∈ name.data, ¬ c.isWhitespace) :
    pyTokens (name ++ " " ++ v) = name :: pyTokens v := by
  have hsp : (" " : String).data = [' '] := rfl
  have hdata : (name ++ " " ++ v).data = name.data ++ ' ' :: v.data := by
    simp [String.data_append, hsp]
  unfold pyTokens
  rw [hdata, wordsAux_word name.data [] v.data h2 (Or.inl h1)]
  simp

theorem splitSpAux_no_space (l : List Char) : ∀ acc, (∀ c ∈ l, c ≠ ' ') →
    splitSpAux acc l = [acc.reverse ++ l] := by
  induction l with
  | nil => intro acc _; simp [splitSpAux]
  | cons c cs ih =>
    intro acc h
    have hc : ¬ (c = ' ') := h c (by simp)
    simp only [splitSpAux, if_neg hc]
    rw [ih (c :: acc) (fun x hx => h x (by simp [hx]))]
    simp

theorem lastSpaceToken_eq_self (s : String) (h : ∀ c ∈ s.data, c ≠ ' ') :
    lastSpaceToken s = s := by
  unfold lastSpaceToken
  rw [splitSpAux_no_space s.data [] h]
  simp

theorem wordsAux_no_whitespace (l : List Char) : ∀ (acc : List Char),
    (∀ c ∈ acc, ¬ c.isWhitespace) →
    ∀ w ∈ wordsAux acc l, ∀ c ∈ w, ¬ c.isWhitespace := by
  induction l with
  | nil =>
    intro acc hacc w hw
    unfold wordsAux at hw
    by_cases he : acc.isEmpty
    · simp [he] at hw
    · simp [he] at hw
      subst hw
      intro c hc
      exact hacc c (by simpa using hc)
  | cons c cs ih =>
    intro acc hacc w hw
    unfold wordsAux at hw
    by_cases hc : c.isWhitespace
    · simp only [if_pos hc] at hw
      by_cases he : acc.isEmpty
      · simp only [if_pos he] at hw
        exact ih [] (by simp) w hw
      · simp only [if_neg he, List.mem_cons] at hw
        rcases hw with rfl | hw
        · intro x hx
          exact hacc x (by simpa using hx)
        · exact ih [] (by simp) w hw
    · simp only [if_neg hc] at hw
      refine ih (c :: acc) ?_ w hw
      intro x hx
      rcases List.mem_cons.mp hx with rfl | hx
      · exact hc
      · exact hacc x hx

theorem pyTokens_no_space (cmd : String) (t : String) (ht : t ∈ pyTokens cmd) :
    ∀ c ∈ t.data, c ≠ ' ' := by
  unfold pyTokens at ht
  rcases List.mem_map.mp ht with ⟨w, hw, rfl⟩
  intro c hc heq
  subst heq
  exact wordsAux_no_whitespace cmd.data [] (by simp) w hw ' ' hc (by decide)

/-!
## Lemmas about the state machine
-/

theorem dictGet_mem (st : List (String × String)) (k v : String)
    (h : dictGet st k = some v) : (k, v) ∈ st := by
  induction st with
  | nil => cases h
  | cons p rest ih =>
    by_cases hp : p.1 = k
    · rw [dictGet, if_pos hp] at h
      have : v = p.2 := (Option.some.inj h).symm
      subst this
      subst hp
      exact List.mem_cons_self _ _
    · rw [dictGet, if_neg hp] at h
      exact List.mem_cons_of_mem _ (ih h)

theorem valuesSpaceFree_no_space (st : List (String × String))
    (h : valuesSpaceFree st = true) (k v : String)
    (hm : dictGet st k = some v) : ∀ c ∈ v.data, c ≠ ' ' := by
  have hmem := dictGet_mem st k v hm
  unfold valuesSpaceFree at h
  rw [List.all_eq_true] at h
  have hv := h (k, v) hmem
  rw [List.all_eq_true] at hv
  intro c hc heq
  have := hv c hc
  subst heq
  simp at this

theorem write_ok_cases (cmd : String) (st st' : List (String × String))
    (h : DG4202StateMachine.write cmd st = .ok st') :
    ∃ k v, pyTokens cmd = [k, v] ∧
      (st' = dictSet st k "1" ∨ st' = dictSet st k "0" ∨ st' = dictSet st k v) := by
  unfold DG4202StateMachine.write at h
  split at h
  · rcases hl : pyTokens cmd with _ | ⟨a, _ | ⟨b, _ | ⟨c', r⟩⟩⟩ <;> rw [hl] at h
    · cases h
    · cases h
    · exact ⟨a, b, rfl, Or.inl (Except.ok.inj h).symm⟩
    · cases h
  · split at h
    · rcases hl : pyTokens cmd with _ | ⟨a, _ | ⟨b, _ | ⟨c', r⟩⟩⟩ <;> rw [hl] at h
      · cases h
      · cases h
      · exact ⟨a, b, rfl, Or.inr (Or.inl (Except.ok.inj h).symm)⟩
      · cases h
    · rcases hl : pyTokens cmd with _ | ⟨a, _ | ⟨b, _ | ⟨c', r⟩⟩⟩ <;> rw [hl] at h
      · cases h
      · cases h
      · exact ⟨a, b, rfl, Or.inr (Or.inr (Except.ok.inj h).symm)⟩
      · cases h

theorem valuesSpaceFree_dictSet (st : List (String × String)) (k v : String)
    (hst : valuesSpaceFree st = true)
    (hv : ∀ c ∈ v.data, c ≠ ' ') : valuesSpaceFree (dictSet st k v) = true := by
  have hvb : (v.data.all fun c => !(c == ' ')) = true := by
    rw [List.all_eq_true]
    intro c hc
    simpa using hv c hc
  unfold valuesSpaceFree at hst ⊢
  rw [List.all_eq_true] at hst ⊢
  intro p hp
  induction st with
  | nil =>
    simp [dictSet] at hp
    subst hp
    exact hvb
  | cons q rest ih =>
    by_cases hq : q.1 = k
    · rw [dictSet, if_pos hq] at hp
      rcases List.mem_cons.mp hp with rfl | hp
      · exact hvb
      · exact hst _ (List.mem_cons_of_mem _ hp)
    · rw [dictSet, if_neg hq] at hp
      rcases List.mem_cons.mp hp with rfl | hp
      · exact hst _ (List.mem_cons_self _ _)
      · exact ih (fun x hx => hst x (List.mem_cons_of_mem _ hx)) hp

theorem valuesSpaceFree_write (cmd : String) (st st' : List (String × String))
    (hst : valuesSpaceFree st = true)
    (h : DG4202StateMachine.write cmd st = .ok st') :
    valuesSpaceFree st' = true := by
  obtain ⟨k, v, htok, hcase⟩ := write_ok_cases cmd st st' h
  have hv : ∀ c ∈ v.data, c ≠ ' ' :=
    pyTokens_no_space cmd v (by rw [htok]; simp)
  rcases hcase with rfl | rfl | rfl
  · exact valuesSpaceFree_dictSet st k "1" hst (by decide)
  · exact valuesSpaceFree_dictSet st k "0" hst (by decide)
  · exact valuesSpaceFree_dictSet st k v hst hv

theorem valuesSpaceFree_initialState :
    valuesSpaceFree DG4202StateMachine.initialState = true := by decide

theorem valuesSpaceFree_runWrites (cmds : List String) :
    ∀ st, valuesSpaceFree st = true →
    valuesSpaceFree (DG4202StateMachine.runWrites cmds st).1 = true := by
  induction cmds with
  | nil => intro st h; exact h
  | cons c cs ih =>
    intro st h
    unfold DG4202StateMachine.runWrites
    cases hw : DG4202StateMachine.write c st with
    | ok st' => exact ih st' (valuesSpaceFree_write c st st' h hw)
    | error e => exact h

/-- C8 (confirmed): a state-machine write whose command does not split into
exactly one key and one value (Python `command, value = command.split()`)
fails with an error, and the State Store dictionary after the failed call is
exactly the dictionary before it. -/
theorem write_malformed_fails_and_preserves_state (cmd : String)
    (st : List (String × String)) (h : (pyTokens cmd).length ≠ 2) :
    DG4202StateMachine.write cmd st = .error () ∧
    DG4202StateMachine.writeState cmd st = st := by
  have hw : DG4202StateMachine.write cmd st = .error () := by
    unfold DG4202StateMachine.write
    rcases hl : pyTokens cmd with _ | ⟨a, _ | ⟨b, _ | ⟨c', r⟩⟩⟩
    · split
      · rfl
      · split
        · rfl
        · rfl
    · split
      · rfl
      · split
        · rfl
        · rfl
    · exact absurd (by rw [hl]; rfl) h
    · split
      · rfl
      · split
        · rfl
        · rfl
  refine ⟨hw, ?_⟩
  unfold DG4202StateMachine.writeState
  rw [hw]

/-- Witness for `write_malformed_fails_and_preserves_state`: the command
`"NOSPACE"` has no space separator. -/
theorem write_malformed_witness :
    DG4202StateMachine.write "NOSPACE" DG4202StateMachine.initialState = .error () ∧
    DG4202StateMachine.writeState "NOSPACE" DG4202StateMachine.initialState =
      DG4202StateMachine.initialState :=
  write_malformed_fails_and_preserves_state "NOSPACE"
    DG4202StateMachine.initialState (by decide)

/-- C9 (confirmed): for every query string the state-machine read strips the
trailing `"?"` marker (`stripQuery`) and returns the stored value for known
keys and `""` for unknown keys.  The hypothesis — no stored value contains a
space — is the State Store invariant: it holds of the power-on dictionary
(`valuesSpaceFree_initialState`) and is preserved by every write
(`valuesSpaceFree_write`).  `read` is a total function: the embedding has no
error case, modelling "never raises for any query string". -/
theorem read_returns_value_or_empty (st : List (String × String)) (q : String)
    (h : valuesSpaceFree st = true) :
    (∀ v, dictGet st (DG4202StateMachine.stripQuery q) = some v →
      DG4202StateMachine.read q st = v) ∧
    (dictGet st (DG4202StateMachine.stripQuery q) = none →
      DG4202StateMachine.read q st = "") := by
  constructor
  · intro v hv
    unfold DG4202StateMachine.read
    rw [hv]
    exact lastSpaceToken_eq_self v (valuesSpaceFree_no_space st h _ v hv)
  · intro hn
    unfold DG4202StateMachine.read
    rw [hn]
    rfl

/-- Witness for `read_returns_value_or_empty`: a known key (`"OUTPut1?"`)
returns its stored value, an unknown key returns `""`. -/
theorem read_returns_value_or_empty_witness :
    DG4202StateMachine.read "OUTPut1?" DG4202StateMachine.initialState = "0" ∧
    DG4202StateMachine.read "NOSUCHKEY?" DG4202StateMachine.initialState = "" :=
  ⟨(read_returns_value_or_empty DG4202StateMachine.initialState "OUTPut1?"
      (by decide)).1 "0" (by decide),
   (read_returns_value_or_empty DG4202StateMachine.initialState "NOSUCHKEY?"
      (by decide)).2 (by decide)⟩

/-- C7 (confirmed): while the mock's `killed` flag is true, every write is
absorbed with the mock (its dictionary included) left exactly as it was and
no exception, every read returns the null result, and whole sequences of
writes leave the mock unchanged; after `simulate_kill(False)` the dictionary
still holds exactly its pre-kill entries, reads answer from it normally, and
writes delegate to the state machine again. -/
theorem mock_killed_absorbs_and_preserves_state (m : DG4202MockInterface)
    (h : m.killed = true) :
    (∀ cmd, DG4202MockInterface.write cmd m = .ok m) ∧
    (∀ cmd, DG4202MockInterface.read cmd m = none) ∧
    (∀ cmds, DG4202MockInterface.runWrites cmds m = .ok m) ∧
    (DG4202MockInterface.simulate_kill false m).dg4202 = m.dg4202 ∧
    (∀ cmd, DG4202MockInterface.read cmd (DG4202MockInterface.simulate_kill false m) =
      some (DG4202StateMachine.read cmd m.dg4202)) ∧
    (∀ cmd st', DG4202StateMachine.write cmd m.dg4202 = .ok st' →
      DG4202MockInterface.write cmd (DG4202MockInterface.simulate_kill false m) =
        .ok ⟨false, st'⟩) := by
  have hw : ∀ cmd, DG4202MockInterface.write cmd m = .ok m := by
    intro cmd
    unfold DG4202MockInterface.write
    rw [h]
    rfl
  refine ⟨hw, ?_, ?_, rfl, ?_, ?_⟩
  · intro cmd
    unfold DG4202MockInterface.read
    rw [h]
    rfl
  · intro cmds
    induction cmds with
    | nil => rfl
    | cons c cs ih =>
      unfold DG4202MockInterface.runWrites
      rw [hw c]
      exact ih
  · intro cmd
    unfold DG4202MockInterface.read DG4202MockInterface.simulate_kill
    rfl
  · intro cmd st' hst
    unfold DG4202MockInterface.write DG4202MockInterface.simulate_kill
    rw [if_neg (by simp), hst]

/-- Witness for `mock_killed_absorbs_and_preserves_state`: a killed mock over
the power-on dictionary absorbs a write, answers a read with the null result,
and after `simulate_kill(False)` answers it from the untouched dictionary. -/
theorem mock_killed_witness :
    DG4202MockInterface.write "OUTPut1 ON" ⟨true, DG4202StateMachine.initialState⟩ =
      .ok ⟨true, DG4202StateMachine.initialState⟩ ∧
    DG4202MockInterface.read "OUTPut1?" ⟨true, DG4202StateMachine.initialState⟩ = none ∧
    DG4202MockInterface.read "OUTPut1?"
      (DG4202MockInterface.simulate_kill false ⟨true, DG4202StateMachine.initialState⟩) =
      some (DG4202StateMachine.read "OUTPut1?" DG4202StateMachine.initialState) :=
  ⟨(mock_killed_absorbs_and_preserves_state ⟨true, DG4202StateMachine.initialState⟩ rfl).1
      "OUTPut1 ON",
   (mock_killed_absorbs_and_preserves_state ⟨true, DG4202StateMachine.initialState⟩ rfl).2.1
      "OUTPut1?",
   (mock_killed_absorbs_and_preserves_state ⟨true, DG4202StateMachine.initialState⟩ rfl).2.2.2.2.1
      "OUTPut1?"⟩

theorem read_eq_getD (st : List (String × String)) (q : String)
    (h : valuesSpaceFree st = true) :
    DG4202StateMachine.read q st =
      (dictGet st (DG4202StateMachine.stripQuery q)).getD "" := by
  unfold DG4202StateMachine.read
  cases hv : dictGet st (DG4202StateMachine.stripQuery q) with
  | some v => exact lastSpaceToken_eq_self v (valuesSpaceFree_no_space st h _ v hv)
  | none => rfl

/-- C3 (amended): `get_waveform_parameters(channel)` performs four reads and
returns all four fields — waveform type, frequency, amplitude, offset — as
the raw stored strings, verbatim; no field is parsed to a number, so
malformed numeric text is returned as-is (and the total embedding shows the
call never fails).  The space-free hypothesis is the State Store invariant
established by `valuesSpaceFree_initialState` and `valuesSpaceFree_write`. -/
theorem get_waveform_parameters_verbatim (c : Nat) (st : List (String × String))
    (hc : c = 1 ∨ c = 2) (h : valuesSpaceFree st = true) :
    DG4202.get_waveform_parameters c st =
      { waveform_type := (dictGet st (DG4202.srcName c ":FUNCtion")).getD ""
        frequency := (dictGet st (DG4202.srcName c ":FREQuency:FIXed")).getD ""
        amplitude := (dictGet st (DG4202.srcName c ":VOLTage:LEVel:IMMediate:AMPLitude")).getD ""
        offset := (dictGet st (DG4202.srcName c ":VOLTage:LEVel:IMMediate:OFFSet")).getD "" } := by
  rcases hc with rfl | rfl
  · unfold DG4202.get_waveform_parameters
    rw [read_eq_getD st _ h, read_eq_getD st _ h, read_eq_getD st _ h,
      read_eq_getD st _ h]
    rw [(by decide : DG4202StateMachine.stripQuery (DG4202.srcName 1 ":FUNCtion" ++ "?") =
          DG4202.srcName 1 ":FUNCtion"),
      (by decide : DG4202StateMachine.stripQuery (DG4202.srcName 1 ":FREQuency:FIXed" ++ "?") =
          DG4202.srcName 1 ":FREQuency:FIXed"),
      (by decide : DG4202StateMachine.stripQuery
            (DG4202.srcName 1 ":VOLTage:LEVel:IMMediate:AMPLitude" ++ "?") =
          DG4202.srcName 1 ":VOLTage:LEVel:IMMediate:AMPLitude"),
      (by decide : DG4202StateMachine.stripQuery
            (DG4202.srcName 1 ":VOLTage:LEVel:IMMediate:OFFSet" ++ "?") =
          DG4202.srcName 1 ":VOLTage:LEVel:IMMediate:OFFSet")]
  · unfold DG4202.get_waveform_parameters
    rw [read_eq_getD st _ h, read_eq_getD st _ h, read_eq_getD st _ h,
      read_eq_getD st _ h]
    rw [(by decide : DG4202StateMachine.stripQuery (DG4202.srcName 2 ":FUNCtion" ++ "?") =
          DG4202.srcName 2 ":FUNCtion"),
      (by decide : DG4202StateMachine.stripQuery (DG4202.srcName 2 ":FREQuency:FIXed" ++ "?") =
          DG4202.srcName 2 ":FREQuency:FIXed"),
      (by decide : DG4202StateMachine.stripQuery
            (DG4202.srcName 2 ":VOLTage:LEVel:IMMediate:AMPLitude" ++ "?") =
          DG4202.srcName 2 ":VOLTage:LEVel:IMMediate:AMPLitude"),
      (by decide : DG4202StateMachine.stripQuery
            (DG4202.srcName 2 ":VOLTage:LEVel:IMMediate:OFFSet" ++ "?") =
          DG4202.srcName 2 ":VOLTage:LEVel:IMMediate:OFFSet")]

/-- Witness for `get_waveform_parameters_verbatim` at channel 1 on the
power-on dictionary. -/
theorem get_waveform_parameters_verbatim_witness :
    DG4202.get_waveform_parameters 1 DG4202StateMachine.initialState =
      { waveform_type := (dictGet DG4202StateMachine.initialState
          (DG4202.srcName 1 ":FUNCtion")).getD ""
        frequency := (dictGet DG4202StateMachine.initialState
          (DG4202.srcName 1 ":FREQuency:FIXed")).getD ""
        amplitude := (dictGet DG4202StateMachine.initialState
          (DG4202.srcName 1 ":VOLTage:LEVel:IMMediate:AMPLitude")).getD ""
        offset := (dictGet DG4202StateMachine.initialState
          (DG4202.srcName 1 ":VOLTage:LEVel:IMMediate:OFFSet")).getD "" } :=
  get_waveform_parameters_verbatim 1 DG4202StateMachine.initialState
    (Or.inl rfl) (by decide)

theorem pyTimedeltaStr_ofNat (n : Nat) :
    pyTimedeltaStr (n : Int) =
      if n / 86400 = 0 then
        toString (n % 86400 / 3600) ++ ":" ++ pad2 (n % 86400 % 3600 / 60) ++ ":" ++
          pad2 (n % 86400 % 60)
      else
        toString (n / 86400) ++ " day" ++ (if n / 86400 = 1 then "" else "s") ++ ", " ++
          (toString (n % 86400 / 3600) ++ ":" ++ pad2 (n % 86400 % 3600 / 60) ++ ":" ++
            pad2 (n % 86400 % 60)) := by
  have hdays : Int.fdiv (n : Int) 86400 = ((n / 86400 : Nat) : Int) := by
    rw [Int.fdiv_eq_ediv _ (by omega)]
    omega
  have hsecs : (Int.emod (n : Int) 86400).toNat = n % 86400 := by
    show ((n : Int) % 86400).toNat = n % 86400
    omega
  have htos : toString (((n / 86400 : Nat) : Int)) = toString (n / 86400) := rfl
  simp only [pyTimedeltaStr]
  rw [hdays, hsecs]
  have hm1 : ¬ (((n / 86400 : Nat) : Int) = -1) := by omega
  by_cases h0 : n / 86400 = 0
  · rw [if_pos (by exact_mod_cast h0), if_pos h0]
  · rw [if_neg (by exact_mod_cast h0), if_neg h0, htos]
    by_cases h1 : n / 86400 = 1
    · rw [if_pos (Or.inl (by exact_mod_cast h1)), if_pos h1]
    · rw [if_neg (by rintro (hx | hx); exacts [h1 (by exact_mod_cast hx), hm1 hx]),
        if_neg h1]

/-- C6 (amended): with a truthy (non-null, nonzero) liveness record and a
non-negative elapsed duration, the device-uptime query returns the elapsed
whole seconds formatted as `H:MM:SS` **only when the duration is under 24
hours**; from 24 hours on, the hours field is reduced modulo 24 (it stays
below 24) and a `"{days} day{s}, "` part is prepended.  A null record returns
the literal `"N/A"`. -/
theorem uptime_format_day_wrapped (now t : Int) (h0 : t ≠ 0) (h1 : 0 ≤ now - t) :
    ((now - t).toNat < 86400 →
      get_device_uptime now (some t) = specUnboundedHMS (now - t).toNat) ∧
    (86400 ≤ (now - t).toNat →
      get_device_uptime now (some t) =
        toString ((now - t).toNat / 86400) ++ " day" ++
          (if (now - t).toNat / 86400 = 1 then "" else "s") ++ ", " ++
          (toString ((now - t).toNat % 86400 / 3600) ++ ":" ++
            pad2 ((now - t).toNat % 86400 % 3600 / 60) ++ ":" ++
            pad2 ((now - t).toNat % 86400 % 60)) ∧
      (now - t).toNat % 86400 / 3600 < 24) ∧
    get_device_uptime now none = "N/A" := by
  have hcast : (now - t) = (((now - t).toNat : Nat) : Int) := by omega
  have hup : get_device_uptime now (some t) = pyTimedeltaStr ((now - t).toNat : Int) := by
    simp only [get_device_uptime]
    rw [if_neg h0]
    exact congrArg pyTimedeltaStr hcast
  refine ⟨?_, ?_, rfl⟩
  · intro hlt
    rw [hup, pyTimedeltaStr_ofNat, if_pos (Nat.div_eq_of_lt hlt),
      Nat.mod_eq_of_lt hlt]
    rfl
  · intro hge
    have hne : ¬ ((now - t).toNat / 86400 = 0) := by omega
    refine ⟨?_, by omega⟩
    rw [hup, pyTimedeltaStr_ofNat, if_neg hne]

/-- Witness for `uptime_format_day_wrapped`: 3 elapsed seconds render as
`H:MM:SS`; 86400 elapsed seconds render with a day part. -/
theorem uptime_format_day_wrapped_witness :
    get_device_uptime 4 (some 1) = specUnboundedHMS 3 ∧
    get_device_uptime 86401 (some 1) = "1 day, 0:00:00" :=
  ⟨(uptime_format_day_wrapped 4 1 (by decide) (by decide)).1 (by decide),
   (((uptime_format_day_wrapped 86401 1 (by decide) (by decide)).2.1
      (by decide)).1).trans (by decide)⟩

/-!
## Channel isolation (C10)
-/

theorem chanKey_ne (d : Nat) (k name : String) (hk : chanKeyOf d k = true)
    (hn : chanKeyOf d name = false) : k ≠ name := by
  intro he
  rw [he] at hk
  rw [hk] at hn
  cases hn

theorem write_frame (name v : String) (st : List (String × String)) (k : String)
    (h1 : name.data ≠ []) (h2 : ∀ c ∈ name.data, ¬ c.isWhitespace)
    (hk : k ≠ name) :
    dictGet (DG4202StateMachine.writeState (name ++ " " ++ v) st) k =
      dictGet st k := by
  unfold DG4202StateMachine.writeState
  cases hw : DG4202StateMachine.write (name ++ " " ++ v) st with
  | error e => rfl
  | ok st' =>
    obtain ⟨key, val, htok, hcase⟩ := write_ok_cases _ st st' hw
    rw [pyTokens_pair name v h1 h2] at htok
    have hkey : key = name := by
      injection htok with h' _
      exact h'.symm
    subst hkey
    rcases hcase with rfl | rfl | rfl <;> exact dictGet_dictSet_ne st _ _ k hk

theorem frame_of_cmd (d : Nat) (name v : String) (st : List (String × String))
    (k : String) (h1 : name.data ≠ [])
    (h2 : ∀ c ∈ name.data, ¬ c.isWhitespace)
    (hn : chanKeyOf d name = false) (hk : chanKeyOf d k = true) :
    dictGet (DG4202StateMachine.writeState (name ++ " " ++ v) st) k =
      dictGet st k :=
  write_frame name v st k h1 h2 (chanKey_ne d k name hk hn)

theorem runWrites_frame (cmds : List String) (k : String)
    (h : ∀ cmd ∈ cmds, ∀ st : List (String × String),
      dictGet (DG4202StateMachine.writeState cmd st) k = dictGet st k) :
    ∀ st, dictGet (DG4202StateMachine.runWrites cmds st).1 k = dictGet st k := by
  induction cmds with
  | nil => intro st; rfl
  | cons c cs ih =>
    intro st
    unfold DG4202StateMachine.runWrites
    cases hw : DG4202StateMachine.write c st with
    | ok st' =>
      have hstep : dictGet st' k = dictGet st k := by
        have hc := h c (by simp) st
        unfold DG4202StateMachine.writeState at hc
        rw [hw] at hc
        exact hc
      rw [ih (fun cmd hm st0 => h cmd (by simp [hm]) st0) st']
      exact hstep
    | error e => rfl

theorem optCmd_shape (c : Nat) (suffix : String) (ov : Option String)
    (cmd : String) (hs : suffix ∈ facadeSuffixes)
    (hm : cmd ∈ DG4202.optCmd c suffix ov) : chanShaped c cmd := by
  cases ov with
  | none => simp [DG4202.optCmd] at hm
  | some v =>
    simp [DG4202.optCmd] at hm
    exact Or.inl ⟨suffix, v, hs, hm⟩

theorem cmds_chanShaped (op : FacadeOp) (cmd : String) (hm : cmd ∈ op.cmds) :
    chanShaped op.channel cmd := by
  cases op with
  | setWaveform c w f a o =>
    simp only [FacadeOp.cmds, FacadeOp.channel] at hm ⊢
    unfold DG4202.set_waveform_cmds at hm
    rcases List.mem_append.mp hm with hm | hm
    · rcases List.mem_append.mp hm with hm | hm
      · rcases List.mem_append.mp hm with hm | hm
        · exact optCmd_shape c _ w cmd (by decide) hm
        · exact optCmd_shape c _ f cmd (by decide) hm
      · exact optCmd_shape c _ a cmd (by decide) hm
    · exact optCmd_shape c _ o cmd (by decide) hm
  | setMode c mode mod_type =>
    simp only [FacadeOp.cmds, FacadeOp.channel] at hm ⊢
    unfold DG4202.set_mode_cmds at hm
    split at hm
    · simp at hm
      subst hm
      exact Or.inl ⟨":SWEEp:STATe", "ON", by decide, rfl⟩
    · split at hm
      · simp at hm
        subst hm
        exact Or.inl ⟨":BURSt:STATe", "ON", by decide, rfl⟩
      · split at hm
        · rcases List.mem_append.mp hm with hm | hm
          · simp at hm
            subst hm
            exact Or.inl ⟨":MOD:STATe", "ON", by decide, rfl⟩
          · cases mod_type with
            | none => simp at hm
            | some mt =>
              by_cases hmt : mt = ""
              · simp [hmt] at hm
              · simp [hmt] at hm
                subst hm
                exact Or.inl ⟨":MOD:TYPE", mt, by decide, rfl⟩
        · split at hm
          · unfold DG4202.turn_off_modes_cmds at hm
            simp at hm
            rcases hm with rfl | rfl | rfl
            · exact Or.inl ⟨":SWEEp:STATe", "OFF", by decide, rfl⟩
            · exact Or.inl ⟨":BURSt:STATe", "OFF", by decide, rfl⟩
            · exact Or.inl ⟨":MOD:STATe", "OFF", by decide, rfl⟩
          · simp at hm
  | turnOffModes c =>
    simp only [FacadeOp.cmds, FacadeOp.channel] at hm ⊢
    unfold DG4202.turn_off_modes_cmds at hm
    simp at hm
    rcases hm with rfl | rfl | rfl
    · exact Or.inl ⟨":SWEEp:STATe", "OFF", by decide, rfl⟩
    · exact Or.inl ⟨":BURSt:STATe", "OFF", by decide, rfl⟩
    · exact Or.inl ⟨":MOD:STATe", "OFF", by decide, rfl⟩
  | outputOnOff c status =>
    simp only [FacadeOp.cmds, FacadeOp.channel] at hm ⊢
    unfold DG4202.output_on_off_cmds at hm
    cases status with
    | true =>
      simp at hm
      subst hm
      exact Or.inr ⟨"ON", rfl⟩
    | false =>
      simp at hm
      subst hm
      exact Or.inr ⟨"OFF", rfl⟩

/-- C10 (confirmed): every facade operation with a channel argument
(`set_waveform`, `set_mode`, `turn_off_modes`, `output_on_off`), executed
against the mock instrument on channel 1 or 2, leaves every State Store entry
whose key belongs to the other channel (`SOURce{other}…` or `OUTPut{other}`)
with exactly the value it held before the call — including runs that stop at
a propagated write exception. -/
theorem facade_ops_preserve_other_channel (op : FacadeOp)
    (st : List (String × String)) (k : String)
    (hc : op.channel = 1 ∨ op.channel = 2)
    (hk : chanKeyOf (3 - op.channel) k = true) :
    dictGet (DG4202StateMachine.runWrites op.cmds st).1 k = dictGet st k := by
  apply runWrites_frame
  intro cmd hm st0
  rcases cmds_chanShaped op cmd hm with ⟨suffix, v, hsfx, rfl⟩ | ⟨v, rfl⟩
  · simp only [facadeSuffixes, List.mem_cons] at hsfx
    rcases hc with hc | hc <;> rw [hc] at hk ⊢ <;>
      rcases hsfx with rfl | rfl | rfl | rfl | rfl | rfl | rfl | rfl | hsfx <;>
        first
          | exact frame_of_cmd _ _ v st0 k (by decide) (by decide) (by decide) hk
          | simp at hsfx
  · rcases hc with hc | hc <;> rw [hc] at hk ⊢ <;>
      exact frame_of_cmd _ _ v st0 k (by decide) (by decide) (by decide) hk

/-- Witness for `facade_ops_preserve_other_channel`: `set_mode(2, "sweep")`
leaves the channel-1 sweep flag entry unchanged. -/
theorem facade_ops_preserve_other_channel_witness :
    dictGet (DG4202StateMachine.runWrites
      (FacadeOp.setMode 2 "sweep" none).cmds DG4202StateMachine.initialState).1
      "SOURce1:SWEEp:STATe" =
    dictGet DG4202StateMachine.initialState "SOURce1:SWEEp:STATe" :=
  facade_ops_preserve_other_channel (FacadeOp.setMode 2 "sweep" none)
    DG4202StateMachine.initialState "SOURce1:SWEEp:STATe"
    (Or.inr rfl) (by decide)
